import Mathlib

/-!
# Bridge-vault: verification of the specification against the code

A shallow embedding of the bridge-vault repository: the on-chain custody
program (`programs/bridge-vault/src/processor.rs`, `state.rs`, `error.rs`)
and the off-chain relayer (`relayer/src/validator_client.rs`,
`transaction_submitter.rs`, `solana_monitor.rs`, `db.rs`, `types.rs`).

Machine integers are modelled as `Nat` with explicit `% 2^64` / `% 2^32`
bounds where the Rust code uses checked arithmetic or fixed-width hashing.
Byte strings are `List Nat` (each entry a byte value).  Fallible code
returns an explicit error component.
-/

namespace BridgeVault

/-! ## SHA-256 (as used by `sha2::Sha256` in both halves of the code)

A byte-level executable SHA-256 over `List Nat`, each entry one byte.
All word arithmetic is `Nat` reduced mod `2^32`. -/

/-- 2^32, the modulus for SHA-256 word arithmetic. -/
def w32 : Nat := 4294967296

/-- Right rotation of a 32-bit word. -/
def rotr32 (x n : Nat) : Nat :=
  ((x >>> n) ||| (x <<< (32 - n))) % w32

/-- SHA-256 big sigma 0. -/
def bigSigma0 (x : Nat) : Nat := (rotr32 x 2) ^^^ (rotr32 x 13) ^^^ (rotr32 x 22)

/-- SHA-256 big sigma 1. -/
def bigSigma1 (x : Nat) : Nat := (rotr32 x 6) ^^^ (rotr32 x 11) ^^^ (rotr32 x 25)

/-- SHA-256 small sigma 0. -/
def smallSigma0 (x : Nat) : Nat := (rotr32 x 7) ^^^ (rotr32 x 18) ^^^ (x >>> 3)

/-- SHA-256 small sigma 1. -/
def smallSigma1 (x : Nat) : Nat := (rotr32 x 17) ^^^ (rotr32 x 19) ^^^ (x >>> 10)

/-- SHA-256 choice function; `¬x` on 32 bits is xor with `2^32 - 1`. -/
def chF (x y z : Nat) : Nat := (x &&& y) ^^^ ((x ^^^ 4294967295) &&& z)

/-- SHA-256 majority function. -/
def majF (x y z : Nat) : Nat := (x &&& y) ^^^ (x &&& z) ^^^ (y &&& z)

/-- The 64 SHA-256 round constants. -/
def sha256K : List Nat :=
  [1116352408, 1899447441, 3049323471, 3921009573, 961987163,
   1508970993, 2453635748, 2870763221, 3624381080, 310598401,
   607225278, 1426881987, 1925078388, 2162078206, 2614888103,
   3248222580, 3835390401, 4022224774, 264347078, 604807628,
   770255983, 1249150122, 1555081692, 1996064986, 2554220882,
   2821834349, 2952996808, 3210313671, 3336571891, 3584528711,
   113926993, 338241895, 666307205, 773529912, 1294757372,
   1396182291, 1695183700, 1986661051, 2177026350, 2456956037,
   2730485921, 2820302411, 3259730800, 3345764771, 3516065817,
   3600352804, 4094571909, 275423344, 430227734, 506948616,
   659060556, 883997877, 958139571, 1322822218, 1537002063,
   1747873779, 1955562222, 2024104815, 2227730452, 2361852424,
   2428436474, 2756734187, 3204031479, 3329325298]

/-- The SHA-256 initial hash state. -/
def sha256H0 : List Nat :=
  [1779033703, 3144134277, 1013904242, 2773480762,
   1359893119, 2600822924, 528734635, 1541459225]

/-- Group bytes into big-endian 32-bit words, four bytes per word. -/
def bytesToWordsBE : List Nat → List Nat
  | a :: b :: c :: d :: rest => (((a * 256 + b) * 256 + c) * 256 + d) :: bytesToWordsBE rest
  | _ => []

/-- The next word of the SHA-256 message schedule, from the words so far. -/
def sha256ExtendStep (ws : List Nat) : Nat :=
  let n := ws.length
  (smallSigma1 (ws.getD (n - 2) 0) + ws.getD (n - 7) 0
    + smallSigma0 (ws.getD (n - 15) 0) + ws.getD (n - 16) 0) % w32

/-- Extend the message schedule by the given number of words. -/
def sha256Extend : Nat → List Nat → List Nat
  | 0, ws => ws
  | n + 1, ws => sha256Extend n (ws ++ [sha256ExtendStep ws])

/-- One SHA-256 round: rotate the 8-word state with a constant/schedule pair. -/
def sha256Round (st : List Nat) (kw : Nat × Nat) : List Nat :=
  match st with
  | [a, b, c, d, e, f, g, h] =>
    let t1 := (h + bigSigma1 e + chF e f g + kw.1 + kw.2) % w32
    let t2 := (bigSigma0 a + majF a b c) % w32
    [(t1 + t2) % w32, a, b, c, (d + t1) % w32, e, f, g]
  | other => other

/-- Compress one 64-byte block into the running 8-word state. -/
def sha256Compress (st : List Nat) (block : List Nat) : List Nat :=
  let ws := sha256Extend 48 (bytesToWordsBE block)
  let out := (sha256K.zip ws).foldl sha256Round st
  (st.zip out).map (fun p => (p.1 + p.2) % w32)

/-- A `u64` little-endian byte encoding (Rust `u64::to_le_bytes`). -/
def u64le (n : Nat) : List Nat :=
  [n % 256, n / 256 % 256, n / 65536 % 256, n / 16777216 % 256,
   n / 4294967296 % 256, n / 1099511627776 % 256,
   n / 281474976710656 % 256, n / 72057594037927936 % 256]

/-- A `u64` big-endian byte encoding. -/
def u64be (n : Nat) : List Nat := (u64le n).reverse

/-- SHA-256 padding: `0x80`, zeros to 56 mod 64, then the bit length. -/
def sha256Pad (msg : List Nat) : List Nat :=
  let l := msg.length
  msg ++ 128 :: (List.replicate ((119 - l % 64) % 64) 0 ++ u64be (8 * l))

/-- Fold the compression over the given number of leading 64-byte blocks. -/
def sha256Blocks : Nat → List Nat → List Nat → List Nat
  | 0, st, _ => st
  | n + 1, st, bytes => sha256Blocks n (sha256Compress st (bytes.take 64)) (bytes.drop 64)

/-- Serialize 32-bit words back to big-endian bytes. -/
def wordsToBytesBE (ws : List Nat) : List Nat :=
  (ws.map (fun w => [w / 16777216 % 256, w / 65536 % 256, w / 256 % 256, w % 256])).flatten

/-- SHA-256 of a byte string, as its 32 digest bytes. -/
def sha256 (msg : List Nat) : List Nat :=
  let padded := sha256Pad msg
  wordsToBytesBE (sha256Blocks (padded.length / 64) sha256H0 padded)

/-- FIPS 180-4 test vector: SHA-256 of the empty message. -/
theorem sha256_empty_vector :
    sha256 [] =
      [0xe3, 0xb0, 0xc4, 0x42, 0x98, 0xfc, 0x1c, 0x14, 0x9a, 0xfb, 0xf4, 0xc8,
       0x99, 0x6f, 0xb9, 0x24, 0x27, 0xae, 0x41, 0xe4, 0x64, 0x9b, 0x93, 0x4c,
       0xa4, 0x95, 0x99, 0x1b, 0x78, 0x52, 0xb8, 0x55] := by decide

/-- FIPS 180-4 test vector: SHA-256 of the three bytes of "abc". -/
theorem sha256_abc_vector :
    sha256 [97, 98, 99] =
      [0xba, 0x78, 0x16, 0xbf, 0x8f, 0x01, 0xcf, 0xea, 0x41, 0x41, 0x40, 0xde,
       0x5d, 0xae, 0x22, 0x23, 0xb0, 0x03, 0x61, 0xa3, 0x96, 0x17, 0x7a, 0x9c,
       0xb4, 0x10, 0xff, 0x61, 0xf2, 0x00, 0x15, 0xad] := by decide

/-! ## `programs/bridge-vault/src/state.rs` -/

/-- A Solana public key (`Pubkey`), as its 32 raw bytes. -/
abbrev Pubkey := List Nat

/-- 2^64, one past the `u64` maximum; checked `u64` arithmetic fails at it. -/
def u64M : Nat := 18446744073709551616

/-- `BridgeStatus` (state.rs 6-10). -/
inductive BridgeStatus
  | Pending
  | Completed
  | Cancelled
  deriving DecidableEq, Repr

/-- `BridgeConfig` (state.rs 12-23). -/
structure BridgeConfig where
  admin : Pubkey
  vault_pda_bump : Nat
  relayer_authority : Pubkey
  fee_basis_points : Nat
  is_paused : Bool
  total_locked : Nat
  nonce : Nat
  validators : List Pubkey
  validator_threshold : Nat
  deriving DecidableEq, Repr

/-- `UserBridgeState` (state.rs 31-43), the per-lock record. -/
structure UserBridgeState where
  user : Pubkey
  locked_amount : Nat
  token_mint : Pubkey
  destination_chain : Nat
  destination_address : List Nat
  status : BridgeStatus
  nonce : Nat
  timestamp : Int
  unlocked : Bool
  deriving DecidableEq, Repr

/-- `eth_address_to_bytes32` (state.rs 50-54): 12 zero bytes then the
20 address bytes. -/
def eth_address_to_bytes32 (eth_address : List Nat) : List Nat :=
  List.replicate 12 0 ++ eth_address

/-- `bytes32_to_eth_address` (state.rs 56-60): the last 20 of the 32 bytes. -/
def bytes32_to_eth_address (bytes32 : List Nat) : List Nat :=
  bytes32.drop 12

/-! ## `programs/bridge-vault/src/error.rs` -/

/-- `BridgeError` (error.rs 5-50). -/
inductive BridgeError
  | Unauthorized
  | BridgePaused
  | InvalidNonce
  | ThresholdNotMet
  | AlreadyInitialized
  | Overflow
  | IncorrectOwner
  | AccountNotWritable
  | MissingRequiredSignature
  | InvalidFee
  | InvalidStatus
  | InsufficientFunds
  | InvalidDestination
  | InvalidPDA
  | AlreadyUnlocked
  deriving DecidableEq, Repr

/-- The `ProgramError` values the processor produces: a custom `BridgeError`
(via `From<BridgeError>`), the builtin Solana errors it maps decode and
argument failures to, and `externalFailure` for a failed cross-program
invocation (system `create_account` or SPL token transfer). -/
inductive PErr
  | custom (e : BridgeError)
  | invalidAccountData
  | invalidArgument
  | externalFailure
  deriving DecidableEq, Repr

/-! ## Canonical messages

`create_unlock_message` from `processor.rs` 726-736 and
`create_solana_message_hash` from `relayer/src/validator_client.rs` 166-184.
Rust `&str` arguments are embedded as their UTF-8 bytes. -/

/-- The ASCII bytes of the tag string "unlock:". -/
def unlockTag : List Nat := [117, 110, 108, 111, 99, 107, 58]

/-- `create_unlock_message` (processor.rs 726-736):
SHA-256 of "unlock:" bytes, nonce little-endian u64, the 32 user key bytes,
amount little-endian u64. -/
def create_unlock_message (nonce : Nat) (user : Pubkey) (amount : Nat) : List Nat :=
  sha256 (unlockTag ++ u64le nonce ++ user ++ u64le amount)

/-- `create_solana_message_hash` (validator_client.rs 166-184): SHA-256 of
the recipient string UTF-8 bytes, amount little-endian u64, nonce
little-endian u64, the ethereum sender string UTF-8 bytes. -/
def create_solana_message_hash (recipient : List Nat) (amount nonce : Nat)
    (ethereum_sender : List Nat) : List Nat :=
  sha256 (recipient ++ u64le amount ++ u64le nonce ++ ethereum_sender)

/-! ## `programs/bridge-vault/src/processor.rs`

Each `process_*` entry point is a pure state transformer over the accounts
it touches, returning the account state in program order together with an
optional error.  Writes the Rust code performs before a later failure are
kept (the hosting runtime's rollback is modelled separately in
`run_instruction`).  `find_program_address` and `ed25519_dalek` signature
verification are beyond byte-level modelling, so they are abstracted as
function parameters `fpa` and `verify` of the operations that call them. -/

/-- The system program id `11111111111111111111111111111111`: 32 zero bytes. -/
def systemProgramId : Pubkey := List.replicate 32 0

/-- The ASCII bytes of the PDA seed b"vault". -/
def vaultSeed : List Nat := [118, 97, 117, 108, 116]

/-- The ASCII bytes of the PDA seed b"bridge". -/
def bridgeSeed : List Nat := [98, 114, 105, 100, 103, 101]

/-- The persisted state a vault instruction can touch: the bridge config
account (owner and decoded data), the per-lock record account, and the
user/vault SPL token balances plus the user token account's mint. -/
structure VaultSt where
  configOwner : Pubkey
  configData : Option BridgeConfig
  recordOwner : Pubkey
  recordData : Option UserBridgeState
  userTokenAmount : Nat
  userTokenMint : Pubkey
  vaultTokenAmount : Nat
  deriving DecidableEq, Repr

/-- The transaction-supplied context of `process_initialize`: account keys,
the admin's signer flag, and whether the funding `create_account` CPI
succeeds. -/
structure InitEnv where
  adminKey : Pubkey
  adminIsSigner : Bool
  configKey : Pubkey
  vaultPdaKey : Pubkey
  adminCanFund : Bool
  deriving DecidableEq, Repr

/-- The transaction-supplied context of `process_lock_tokens`. -/
structure LockEnv where
  userKey : Pubkey
  userIsSigner : Bool
  recordKey : Pubkey
  tokenMintKey : Pubkey
  userCanFund : Bool
  now : Int
  deriving DecidableEq, Repr

/-- The transaction-supplied context of `process_unlock_tokens`. -/
structure UnlockEnv where
  relayerKey : Pubkey
  relayerIsSigner : Bool
  userKey : Pubkey
  configKey : Pubkey
  vaultPdaKey : Pubkey
  deriving DecidableEq, Repr

/-- The transaction-supplied context of the admin-only operations. -/
structure AdminEnv where
  adminKey : Pubkey
  adminIsSigner : Bool
  deriving DecidableEq, Repr

/-- `process_initialize` (processor.rs 91-199). -/
def process_initialize (program_id : Pubkey)
    (fpa : List (List Nat) → Pubkey → Pubkey × Nat)
    (st : VaultSt) (env : InitEnv) (admin relayer_authority : Pubkey)
    (fee_basis_points : Nat) (validators : List Pubkey)
    (validator_threshold : Nat) : VaultSt × Option PErr :=
  if env.adminIsSigner = false then (st, some (.custom .MissingRequiredSignature))
  else if env.adminKey ≠ admin then (st, some (.custom .Unauthorized))
  else if st.configOwner ≠ systemProgramId then (st, some (.custom .AlreadyInitialized))
  else if 10000 < fee_basis_points then (st, some (.custom .InvalidFee))
  else if validators.length = 0 ∨ 5 < validators.length then (st, some .invalidArgument)
  else if validator_threshold = 0 ∨ validators.length < validator_threshold then
    (st, some .invalidArgument)
  else
    let vp := fpa [vaultSeed, env.configKey] program_id
    if env.vaultPdaKey ≠ vp.1 then (st, some (.custom .InvalidPDA))
    else if env.adminCanFund = false then (st, some .externalFailure)
    else
      ({ st with
          configOwner := program_id,
          configData := some {
            admin := admin,
            vault_pda_bump := vp.2,
            relayer_authority := relayer_authority,
            fee_basis_points := fee_basis_points,
            is_paused := false,
            total_locked := 0,
            nonce := 0,
            validators := validators,
            validator_threshold := validator_threshold } }, none)

/-- The fee arithmetic of `process_lock_tokens` (processor.rs 252-258):
`checked_mul` by the fee, `checked_div` by 10000, `checked_sub` from the
amount, each failure mapped to `Overflow`. -/
def lock_fee_net (amount fee_basis_points : Nat) : Except BridgeError (Nat × Nat) :=
  if u64M ≤ amount * fee_basis_points then .error .Overflow
  else
    let fee := amount * fee_basis_points / 10000
    if amount < fee then .error .Overflow
    else .ok (fee, amount - fee)

/-- `process_lock_tokens` (processor.rs 201-384). -/
def process_lock_tokens (program_id : Pubkey)
    (fpa : List (List Nat) → Pubkey → Pubkey × Nat)
    (st : VaultSt) (env : LockEnv) (amount destination_chain : Nat)
    (destination_address : List Nat) : VaultSt × Option PErr :=
  if env.userIsSigner = false then (st, some (.custom .MissingRequiredSignature))
  else if st.configOwner ≠ program_id then (st, some (.custom .IncorrectOwner))
  else match st.configData with
  | none => (st, some .invalidAccountData)
  | some cfg =>
    if cfg.is_paused then (st, some (.custom .BridgePaused))
    else if amount = 0 then (st, some (.custom .InsufficientFunds))
    else if destination_chain = 0 ∨ 10 < destination_chain then
      (st, some (.custom .InvalidDestination))
    else match lock_fee_net amount cfg.fee_basis_points with
    | .error e => (st, some (.custom e))
    | .ok (_, net_amount) =>
      if st.userTokenAmount < amount then (st, some (.custom .InsufficientFunds))
      else if st.userTokenMint ≠ env.tokenMintKey then (st, some .invalidAccountData)
      else
        let current_nonce := cfg.nonce
        if u64M ≤ cfg.nonce + 1 then (st, some (.custom .Overflow))
        else
          let cfg := { cfg with nonce := cfg.nonce + 1 }
          let pda := fpa [bridgeSeed, env.userKey, u64le current_nonce] program_id
          if env.recordKey ≠ pda.1 then (st, some (.custom .InvalidPDA))
          else if env.userCanFund = false then (st, some .externalFailure)
          else
            let st := { st with
              recordOwner := program_id,
              recordData := some {
                user := env.userKey,
                locked_amount := net_amount,
                token_mint := env.tokenMintKey,
                destination_chain := destination_chain,
                destination_address := destination_address,
                status := .Pending,
                nonce := current_nonce,
                timestamp := env.now,
                unlocked := false } }
            if st.userTokenAmount < amount then (st, some .externalFailure)
            else if u64M ≤ st.vaultTokenAmount + amount then (st, some .externalFailure)
            else
              let st := { st with
                userTokenAmount := st.userTokenAmount - amount,
                vaultTokenAmount := st.vaultTokenAmount + amount }
              if u64M ≤ cfg.total_locked + net_amount then (st, some (.custom .Overflow))
              else
                ({ st with
                    configData := some
                      { cfg with total_locked := cfg.total_locked + net_amount } },
                  none)

/-- The signature-counting loop of `process_unlock_tokens` (processor.rs
486-495): each supplied signature adds one when it verifies against some
configured validator key (the inner loop breaks at the first match). -/
def count_valid_signatures (verify : List Nat → List Nat → Pubkey → Bool)
    (message : List Nat) (signatures : List (List Nat))
    (validators : List Pubkey) : Nat :=
  signatures.foldl
    (fun acc s => if validators.any (fun v => verify message s v) then acc + 1 else acc) 0

/-- `process_unlock_tokens` (processor.rs 386-567). -/
def process_unlock_tokens (program_id : Pubkey)
    (fpa : List (List Nat) → Pubkey → Pubkey × Nat)
    (verify : List Nat → List Nat → Pubkey → Bool)
    (st : VaultSt) (env : UnlockEnv) (nonce : Nat)
    (signatures : List (List Nat)) : VaultSt × Option PErr :=
  if env.relayerIsSigner = false then (st, some (.custom .MissingRequiredSignature))
  else if st.configOwner ≠ program_id then (st, some (.custom .IncorrectOwner))
  else match st.configData with
  | none => (st, some .invalidAccountData)
  | some cfg =>
    if env.relayerKey ≠ cfg.relayer_authority then (st, some (.custom .Unauthorized))
    else if st.recordOwner ≠ program_id then (st, some (.custom .IncorrectOwner))
    else match st.recordData with
    | none => (st, some .invalidAccountData)
    | some ubs =>
      if ubs.nonce ≠ nonce then (st, some (.custom .InvalidNonce))
      else if ubs.unlocked then (st, some (.custom .AlreadyUnlocked))
      else if ubs.status ≠ .Pending then (st, some (.custom .InvalidStatus))
      else if env.userKey ≠ ubs.user then (st, some (.custom .Unauthorized))
      else
        let vp := fpa [vaultSeed, env.configKey] program_id
        if env.vaultPdaKey ≠ vp.1 then (st, some (.custom .InvalidPDA))
        else if vp.2 ≠ cfg.vault_pda_bump then (st, some (.custom .InvalidPDA))
        else if signatures.length < cfg.validator_threshold then
          (st, some (.custom .ThresholdNotMet))
        else
          let message_data := create_unlock_message nonce env.userKey ubs.locked_amount
          let valid_signature_count :=
            count_valid_signatures verify message_data signatures cfg.validators
          if valid_signature_count < cfg.validator_threshold then
            (st, some (.custom .ThresholdNotMet))
          else
            if st.vaultTokenAmount < ubs.locked_amount then (st, some .externalFailure)
            else if u64M ≤ st.userTokenAmount + ubs.locked_amount then
              (st, some .externalFailure)
            else
              let st1 := { st with
                vaultTokenAmount := st.vaultTokenAmount - ubs.locked_amount,
                userTokenAmount := st.userTokenAmount + ubs.locked_amount }
              let st2 := { st1 with
                recordData := some { ubs with unlocked := true, status := .Completed } }
              if cfg.total_locked < ubs.locked_amount then
                (st2, some (.custom .Overflow))
              else
                ({ st2 with
                    configData := some
                      { cfg with total_locked := cfg.total_locked - ubs.locked_amount } },
                  none)

/-- `process_update_config` (processor.rs 569-641). -/
def process_update_config (program_id : Pubkey) (st : VaultSt) (env : AdminEnv)
    (new_admin new_relayer : Option Pubkey) (new_fee : Option Nat) :
    VaultSt × Option PErr :=
  if env.adminIsSigner = false then (st, some (.custom .MissingRequiredSignature))
  else if st.configOwner ≠ program_id then (st, some (.custom .IncorrectOwner))
  else match st.configData with
  | none => (st, some .invalidAccountData)
  | some cfg =>
    if env.adminKey ≠ cfg.admin then (st, some (.custom .Unauthorized))
    else
      let cfg := match new_admin with
        | some a => { cfg with admin := a }
        | none => cfg
      let cfg := match new_relayer with
        | some r => { cfg with relayer_authority := r }
        | none => cfg
      match new_fee with
      | some f =>
        if 10000 < f then (st, some (.custom .InvalidFee))
        else ({ st with configData := some { cfg with fee_basis_points := f } }, none)
      | none => ({ st with configData := some cfg }, none)

/-- `process_pause` (processor.rs 643-683); pausing an already paused
bridge returns success without writing. -/
def process_pause (program_id : Pubkey) (st : VaultSt) (env : AdminEnv) :
    VaultSt × Option PErr :=
  if env.adminIsSigner = false then (st, some (.custom .MissingRequiredSignature))
  else if st.configOwner ≠ program_id then (st, some (.custom .IncorrectOwner))
  else match st.configData with
  | none => (st, some .invalidAccountData)
  | some cfg =>
    if env.adminKey ≠ cfg.admin then (st, some (.custom .Unauthorized))
    else if cfg.is_paused then (st, none)
    else ({ st with configData := some { cfg with is_paused := true } }, none)

/-- `process_unpause` (processor.rs 685-724). -/
def process_unpause (program_id : Pubkey) (st : VaultSt) (env : AdminEnv) :
    VaultSt × Option PErr :=
  if env.adminIsSigner = false then (st, some (.custom .MissingRequiredSignature))
  else if st.configOwner ≠ program_id then (st, some (.custom .IncorrectOwner))
  else match st.configData with
  | none => (st, some .invalidAccountData)
  | some cfg =>
    if env.adminKey ≠ cfg.admin then (st, some (.custom .Unauthorized))
    else if cfg.is_paused = false then (st, none)
    else ({ st with configData := some { cfg with is_paused := false } }, none)

/-- An already-decoded `BridgeInstruction` with its transaction context. -/
inductive BridgeInstruction
  | Initialize (env : InitEnv) (admin relayer_authority : Pubkey)
      (fee_basis_points : Nat) (validators : List Pubkey) (validator_threshold : Nat)
  | LockTokens (env : LockEnv) (amount destination_chain : Nat)
      (destination_address : List Nat)
  | UnlockTokens (env : UnlockEnv) (nonce : Nat) (signatures : List (List Nat))
  | UpdateConfig (env : AdminEnv) (new_admin new_relayer : Option Pubkey)
      (new_fee : Option Nat)
  | Pause (env : AdminEnv)
  | Unpause (env : AdminEnv)
  deriving DecidableEq, Repr

/-- `process_instruction` (processor.rs 27-89): dispatch to the handler. -/
def process_instruction (program_id : Pubkey)
    (fpa : List (List Nat) → Pubkey → Pubkey × Nat)
    (verify : List Nat → List Nat → Pubkey → Bool)
    (st : VaultSt) : BridgeInstruction → VaultSt × Option PErr
  | .Initialize env a r f v t => process_initialize program_id fpa st env a r f v t
  | .LockTokens env a dc da => process_lock_tokens program_id fpa st env a dc da
  | .UnlockTokens env n sigs => process_unlock_tokens program_id fpa verify st env n sigs
  | .UpdateConfig env a r f => process_update_config program_id st env a r f
  | .Pause env => process_pause program_id st env
  | .Unpause env => process_unpause program_id st env

/-- One vault instruction as observed on chain.  The hosting runtime (spec
section 5: the execution environment makes each instruction atomic over its
accounts) discards every account write of an instruction that returns an
error, so the persisted state after a failed call is the pre-call state. -/
def run_instruction (program_id : Pubkey)
    (fpa : List (List Nat) → Pubkey → Pubkey × Nat)
    (verify : List Nat → List Nat → Pubkey → Bool)
    (st : VaultSt) (i : BridgeInstruction) : VaultSt × Option PErr :=
  match process_instruction program_id fpa verify st i with
  | (_, some e) => (st, some e)
  | ok => ok

/-! ## `relayer/src/types.rs` and `relayer/src/error.rs` -/

/-- `Chain` (types.rs 7-11). -/
inductive Chain
  | Solana
  | Ethereum
  | Sui
  deriving DecidableEq, Repr

/-- `TransactionStatus` (types.rs 81-87). -/
inductive TransactionStatus
  | Pending
  | SignaturesCollected
  | Submitted
  | Confirmed
  | Failed
  deriving DecidableEq, Repr

/-- `RelayerTransaction` (types.rs 102-118), one relay-ledger row;
timestamps are abstract tick values. -/
structure RelayerTransaction where
  id : Nat
  nonce : Nat
  from_chain : Chain
  to_chain : Chain
  from_tx_hash : String
  to_tx_hash : Option String
  sender : String
  recipient : String
  amount : Nat
  status : TransactionStatus
  signatures : Option String
  error_message : Option String
  created_at : Nat
  updated_at : Nat
  deriving DecidableEq, Repr

/-- `RelayerError` (relayer error.rs 4-46); string payloads dropped, plus
`databaseUnique` for an sqlx UNIQUE-constraint violation (a
`DatabaseError`). -/
inductive RelayerError
  | configError
  | databaseUnique
  | solanaRpcError
  | ethereumRpcError
  | invalidSignature
  | insufficientSignatures (expected got : Nat)
  | transactionAlreadyProcessed (nonce : Nat)
  | transactionSubmissionFailed
  | invalidChain
  | serializationError
  | parseError
  | networkError
  | timeoutError
  | unknown
  deriving DecidableEq, Repr

/-! ## `relayer/src/db.rs`

The relay ledger, as the list of rows of `relayer_transactions` in insertion
order; the UNIQUE constraints on `nonce` and `from_tx_hash` from
`run_migrations` (db.rs 31-67) make an INSERT that duplicates either fail
with a database error and change nothing. -/

/-- The relay ledger: the rows of `relayer_transactions` in insertion order. -/
abbrev RelayLedger := List RelayerTransaction

/-- `is_nonce_processed` (db.rs 196-203): whether any row has this nonce. -/
def is_nonce_processed (db : RelayLedger) (nonce : Nat) : Bool :=
  db.any (fun r => r.nonce == nonce)

/-- The Pending row `create_transaction` INSERTs (db.rs 80-96), with the
next autoincrement id. -/
def new_pending_row (db : RelayLedger) (nonce : Nat)
    (from_chain to_chain : Chain) (from_tx_hash sender recipient : String)
    (amount : Nat) (now : Nat) : RelayerTransaction :=
  { id := db.length + 1,
    nonce := nonce,
    from_chain := from_chain,
    to_chain := to_chain,
    from_tx_hash := from_tx_hash,
    to_tx_hash := none,
    sender := sender,
    recipient := recipient,
    amount := amount,
    status := .Pending,
    signatures := none,
    error_message := none,
    created_at := now,
    updated_at := now }

/-- `create_transaction` (db.rs 69-101): INSERT a Pending row; the UNIQUE
constraints on `nonce` and `from_tx_hash` reject a duplicate of either,
atomically leaving the table unchanged.  Returns the new table and row id. -/
def create_transaction (db : RelayLedger) (nonce : Nat)
    (from_chain to_chain : Chain) (from_tx_hash sender recipient : String)
    (amount : Nat) (now : Nat) : Except RelayerError (RelayLedger × Nat) :=
  if db.any (fun r => r.nonce == nonce || r.from_tx_hash == from_tx_hash) then
    .error .databaseUnique
  else
    .ok (db ++ [new_pending_row db nonce from_chain to_chain from_tx_hash
      sender recipient amount now], db.length + 1)

/-- `update_transaction_status` (db.rs 125-149): overwrite status,
destination hash, error message and `updated_at` of the row. -/
def update_transaction_status (tx : RelayerTransaction)
    (status : TransactionStatus) (to_tx_hash : Option String)
    (error_message : Option String) (now : Nat) : RelayerTransaction :=
  { tx with
      status := status,
      to_tx_hash := to_tx_hash,
      error_message := error_message,
      updated_at := now }

/-! ## `relayer/src/solana_monitor.rs` -/

/-- The fields carried by either `BridgeEvent` variant (types.rs 25-46). -/
structure BridgeEventData where
  from_chain : Chain
  to_chain : Chain
  sender : String
  recipient : String
  amount : Nat
  nonce : Nat
  tx_hash : String
  deriving DecidableEq, Repr

/-- `BridgeEvent` (types.rs 25-46). -/
inductive BridgeEvent
  | TokensLocked (d : BridgeEventData)
  | TokensBurned (d : BridgeEventData)
  deriving DecidableEq, Repr

/-- `handle_event` (solana_monitor.rs 216-259): skip a `TokensLocked` event
whose nonce is already in the ledger, otherwise INSERT a Pending row; a
`TokensBurned` event from Solana is only logged.  A database error (such as
a duplicate `from_tx_hash`) propagates and leaves the ledger unchanged. -/
def handle_event (db : RelayLedger) (event : BridgeEvent) (now : Nat) :
    RelayLedger × Option RelayerError :=
  match event with
  | .TokensLocked d =>
    if is_nonce_processed db d.nonce then (db, none)
    else
      match create_transaction db d.nonce d.from_chain d.to_chain d.tx_hash
          d.sender d.recipient d.amount now with
      | .error e => (db, some e)
      | .ok (db2, _) => (db2, none)
  | .TokensBurned _ => (db, none)

/-! ## `relayer/src/transaction_submitter.rs` (confirmation checking) -/

/-- The outcome of looking up the stored destination hash on Solana:
`badHash` when `Signature::from_str` fails, otherwise the value
`get_signature_status` returned — `Ok(Some(Ok(())))`, `Ok(Some(Err(_)))`,
`Ok(None)` or `Err(_)`. -/
inductive SolanaSignatureStatus
  | badHash
  | finalizedOk
  | finalizedErr
  | notFound
  | rpcError
  deriving DecidableEq, Repr

/-- `check_solana_confirmation` (transaction_submitter.rs 343-366): true
only for a found, successful status; a failed status, a missing status and
an RPC error all yield `Ok(false)`. -/
def check_solana_confirmation : SolanaSignatureStatus → Except RelayerError Bool
  | .badHash => .error .parseError
  | .finalizedOk => .ok true
  | .finalizedErr => .ok false
  | .notFound => .ok false
  | .rpcError => .ok false

/-- `check_ethereum_confirmation` (transaction_submitter.rs 335-341): a
placeholder that errors on an undecodable hash and otherwise reports
`Ok(false)`. -/
def check_ethereum_confirmation (hashDecodes : Bool) : Except RelayerError Bool :=
  if hashDecodes = false then .error .parseError else .ok false

/-- `check_confirmation` (transaction_submitter.rs 309-332): with no stored
destination hash do nothing; otherwise poll the destination chain and set
the row to Confirmed exactly when the poll reports a confirmed transaction
(the status update passes `None` for hash and error message).  The returned
row is the row as persisted; an error changes nothing. -/
def check_confirmation (tx : RelayerTransaction) (sol : SolanaSignatureStatus)
    (ethHashDecodes : Bool) (now : Nat) : Except RelayerError RelayerTransaction :=
  match tx.to_tx_hash with
  | none => .ok tx
  | some _ =>
    let conf : Except RelayerError Bool :=
      match tx.to_chain with
      | .Ethereum => check_ethereum_confirmation ethHashDecodes
      | .Solana => check_solana_confirmation sol
      | .Sui => .error .invalidChain
    match conf with
    | .error e => .error e
    | .ok true => .ok (update_transaction_status tx .Confirmed none none now)
    | .ok false => .ok tx

/-! ## Helper lemmas -/

/-- The signature-counting fold, with its accumulator made explicit. -/
theorem count_valid_signatures_aux (verify : List Nat → List Nat → Pubkey → Bool)
    (message : List Nat) (validators : List Pubkey) :
    ∀ (signatures : List (List Nat)) (n : Nat),
      signatures.foldl
        (fun acc s => if validators.any (fun v => verify message s v) then acc + 1 else acc) n
      = n + (signatures.filter (fun s => validators.any (fun v => verify message s v))).length := by
  intro signatures
  induction signatures with
  | nil => intro n; simp
  | cons s rest ih =>
    intro n
    cases hs : validators.any (fun v => verify message s v) with
    | false =>
      rw [List.foldl_cons, if_neg (by simp only [hs]; decide),
        List.filter_cons, if_neg (by simp only [hs]; decide)]
      exact ih n
    | true =>
      rw [List.foldl_cons, if_pos hs, List.filter_cons, if_pos hs, ih (n + 1),
        List.length_cons]
      omega

/-- The per-signature count is the number of supplied signatures that verify
against at least one configured validator key. -/
theorem count_valid_signatures_eq_filter (verify : List Nat → List Nat → Pubkey → Bool)
    (message : List Nat) (signatures : List (List Nat)) (validators : List Pubkey) :
    count_valid_signatures verify message signatures validators
      = (signatures.filter (fun s => validators.any (fun v => verify message s v))).length := by
  unfold count_valid_signatures
  rw [count_valid_signatures_aux]
  omega

/-! ## C10: ethereum address round-trip -/

/-- C10: for every 20-byte Ethereum address, `bytes32_to_eth_address` inverts
`eth_address_to_bytes32`, and the canonical 32-byte form starts with 12 zero
bytes. -/
theorem eth_address_roundtrip (a : List Nat) (h : a.length = 20) :
    bytes32_to_eth_address (eth_address_to_bytes32 a) = a ∧
    (eth_address_to_bytes32 a).take 12 = List.replicate 12 0 ∧
    (eth_address_to_bytes32 a).length = 32 := by
  refine ⟨?_, ?_, ?_⟩
  · simp [bytes32_to_eth_address, eth_address_to_bytes32]
  · simp [eth_address_to_bytes32, List.take_append]
  · simp [eth_address_to_bytes32, h]

/-- Witness for C10 at the concrete address from the repository's own test. -/
theorem eth_address_roundtrip_witness :
    ([0x74, 0x2d, 0x35, 0xCc, 0x66, 0x34, 0xC0, 0x53, 0x29, 0x25, 0xa3, 0xb8,
      0x44, 0xBc, 0x9e, 0x75, 0x95, 0xf0, 0xbE, 0xb0] : List Nat).length = 20 ∧
    bytes32_to_eth_address (eth_address_to_bytes32
      [0x74, 0x2d, 0x35, 0xCc, 0x66, 0x34, 0xC0, 0x53, 0x29, 0x25, 0xa3, 0xb8,
       0x44, 0xBc, 0x9e, 0x75, 0x95, 0xf0, 0xbE, 0xb0]) =
      [0x74, 0x2d, 0x35, 0xCc, 0x66, 0x34, 0xC0, 0x53, 0x29, 0x25, 0xa3, 0xb8,
       0x44, 0xBc, 0x9e, 0x75, 0x95, 0xf0, 0xbE, 0xb0] :=
  ⟨by decide,
   (eth_address_roundtrip
      [0x74, 0x2d, 0x35, 0xCc, 0x66, 0x34, 0xC0, 0x53, 0x29, 0x25, 0xa3, 0xb8,
       0x44, 0xBc, 0x9e, 0x75, 0x95, 0xf0, 0xbE, 0xb0] (by decide)).1⟩

/-! ## C5: the lock fee arithmetic -/

/-- C5: for fee_bps ≤ 10000 and amount > 0, the lock fee computation yields
`fee = floor(amount * fee_bps / 10000)` and `net = amount - fee` with
`net ≤ amount` whenever the `u64` product does not overflow, and fails with
`Overflow` when it does; the overflow failure propagates out of
`process_lock_tokens` with the state unchanged. -/
theorem lock_fee_correct (amount fee_bps : Nat)
    (hfee : fee_bps ≤ 10000) (hamt : 0 < amount) :
    (amount * fee_bps < u64M →
      lock_fee_net amount fee_bps =
        .ok (amount * fee_bps / 10000, amount - amount * fee_bps / 10000) ∧
      amount - amount * fee_bps / 10000 ≤ amount) ∧
    (u64M ≤ amount * fee_bps →
      lock_fee_net amount fee_bps = .error .Overflow) ∧
    (∀ pid fpa (st : VaultSt) (env : LockEnv) dc da cfg,
      st.configData = some cfg →
      cfg.fee_basis_points = fee_bps →
      env.userIsSigner = true →
      st.configOwner = pid →
      cfg.is_paused = false →
      dc ≠ 0 → dc ≤ 10 →
      u64M ≤ amount * fee_bps →
      process_lock_tokens pid fpa st env amount dc da
        = (st, some (.custom .Overflow))) := by
  have hle : amount * fee_bps / 10000 ≤ amount := by
    calc amount * fee_bps / 10000 ≤ amount * 10000 / 10000 :=
          Nat.div_le_div_right (Nat.mul_le_mul_left amount hfee)
    _ = amount := Nat.mul_div_cancel amount (by omega)
  refine ⟨?_, ?_, ?_⟩
  · intro hov
    unfold lock_fee_net
    rw [if_neg (by omega), if_neg (by omega)]
    exact ⟨rfl, Nat.sub_le _ _⟩
  · intro hov
    unfold lock_fee_net
    rw [if_pos hov]
  · intro pid fpa st env dc da cfg hcd hf hsig hown hpause hdc1 hdc2 hov
    unfold process_lock_tokens
    rw [hsig, hcd]
    simp only [Bool.true_eq_false, if_false, hown, ne_eq, not_true_eq_false,
      hpause, Bool.false_eq_true]
    rw [if_neg (by omega), if_neg (by omega)]
    unfold lock_fee_net
    rw [hf, if_pos hov]

/-- Witness for C5 at amount 3, fee 50 bps: fee 0, net 3. -/
theorem lock_fee_correct_witness :
    lock_fee_net 3 50 = .ok (0, 3) := by
  have h := ((lock_fee_correct 3 50 (by decide) (by decide)).1 (by decide)).1
  exact h

/-! ## C2: atomicity of every vault operation -/

/-- C2: a vault instruction that returns an error leaves every persisted
account exactly as it was: the hosting runtime discards the instruction's
account writes on error, so the observable state is the pre-call state. -/
theorem vault_ops_atomic (pid : Pubkey)
    (fpa : List (List Nat) → Pubkey → Pubkey × Nat)
    (verify : List Nat → List Nat → Pubkey → Bool)
    (st : VaultSt) (i : BridgeInstruction) (e : PErr)
    (h : (run_instruction pid fpa verify st i).2 = some e) :
    (run_instruction pid fpa verify st i).1 = st := by
  unfold run_instruction at h ⊢
  rcases hp : process_instruction pid fpa verify st i with ⟨s, r⟩
  rw [hp] at h
  cases r with
  | none => exact Option.noConfusion (show (none : Option PErr) = some e from h)
  | some e2 => rfl

/-- Witness for C2: pausing without the admin signature fails and leaves the
state unchanged. -/
theorem vault_ops_atomic_witness :
    (run_instruction [7] (fun _ _ => ([0], 0)) (fun _ _ _ => false)
        ⟨[7], none, [0], none, 0, [0], 0⟩ (.Pause ⟨[2], false⟩)).2
      = some (.custom .MissingRequiredSignature) ∧
    (run_instruction [7] (fun _ _ => ([0], 0)) (fun _ _ _ => false)
        ⟨[7], none, [0], none, 0, [0], 0⟩ (.Pause ⟨[2], false⟩)).1
      = ⟨[7], none, [0], none, 0, [0], 0⟩ :=
  ⟨by decide,
   vault_ops_atomic [7] (fun _ _ => ([0], 0)) (fun _ _ _ => false)
     ⟨[7], none, [0], none, 0, [0], 0⟩ (.Pause ⟨[2], false⟩)
     (.custom .MissingRequiredSignature) (by decide)⟩

/-! ## C9: idempotent ledger ingestion -/

/-- C9: ingesting a `TokensLocked` event whose nonce or source hash already
has a ledger row leaves the ledger unchanged (so a unique matching row stays
unique), and ingesting the same event twice never creates a second row. -/
theorem ledger_ingest_idempotent (db : RelayLedger) (d : BridgeEventData) (now : Nat)
    (h : db.any (fun r => r.nonce == d.nonce || r.from_tx_hash == d.tx_hash) = true) :
    (handle_event db (.TokensLocked d) now).1 = db ∧
    ((db.filter (fun r => r.nonce == d.nonce || r.from_tx_hash == d.tx_hash)).length = 1 →
      ((handle_event db (.TokensLocked d) now).1.filter
        (fun r => r.nonce == d.nonce || r.from_tx_hash == d.tx_hash)).length = 1) ∧
    (∀ (db2 : RelayLedger) (n1 n2 : Nat),
      (handle_event (handle_event db2 (.TokensLocked d) n1).1 (.TokensLocked d) n2).1
        = (handle_event db2 (.TokensLocked d) n1).1) := by
  have hunchanged : (handle_event db (.TokensLocked d) now).1 = db := by
    simp only [handle_event]
    by_cases hn : is_nonce_processed db d.nonce = true
    · rw [if_pos hn]
    · rw [if_neg hn]
      simp only [create_transaction]
      rw [if_pos h]
  refine ⟨hunchanged, ?_, ?_⟩
  · intro h1
    rw [hunchanged]
    exact h1
  · intro db2 n1 n2
    by_cases hn : is_nonce_processed db2 d.nonce = true
    · have h1 : handle_event db2 (.TokensLocked d) n1 = (db2, none) := by
        simp only [handle_event]
        rw [if_pos hn]
      rw [h1]
      simp only [handle_event]
      rw [if_pos hn]
    · by_cases hg : (db2.any
          (fun r => r.nonce == d.nonce || r.from_tx_hash == d.tx_hash)) = true
      · have h1 : handle_event db2 (.TokensLocked d) n1
            = (db2, some .databaseUnique) := by
          simp only [handle_event]
          rw [if_neg hn]
          simp only [create_transaction]
          rw [if_pos hg]
        rw [h1]
        simp only [handle_event]
        rw [if_neg hn]
        simp only [create_transaction]
        rw [if_pos hg]
      · have h1 : handle_event db2 (.TokensLocked d) n1
            = (db2 ++ [new_pending_row db2 d.nonce d.from_chain d.to_chain
                d.tx_hash d.sender d.recipient d.amount n1], none) := by
          simp only [handle_event]
          rw [if_neg hn]
          simp only [create_transaction]
          rw [if_neg hg]
        rw [h1]
        have hnp : is_nonce_processed
            (db2 ++ [new_pending_row db2 d.nonce d.from_chain d.to_chain
              d.tx_hash d.sender d.recipient d.amount n1]) d.nonce = true := by
          simp only [is_nonce_processed, List.any_append, List.any_cons,
            List.any_nil, new_pending_row, beq_self_eq_true, Bool.true_or,
            Bool.or_false, Bool.or_true]
        simp only [handle_event]
        rw [if_pos hnp]

/-- Witness for C9: a one-row ledger absorbing the same event again. -/
theorem ledger_ingest_idempotent_witness :
    ((([{ id := 1, nonce := 4, from_chain := .Solana, to_chain := .Ethereum,
          from_tx_hash := "sig4", to_tx_hash := none, sender := "alice",
          recipient := "bob", amount := 10, status := .Pending,
          signatures := none, error_message := none,
          created_at := 0, updated_at := 0 }] : RelayLedger).any
      (fun r => r.nonce == 4 || r.from_tx_hash == "sig4")) = true) ∧
    (handle_event
      [{ id := 1, nonce := 4, from_chain := .Solana, to_chain := .Ethereum,
         from_tx_hash := "sig4", to_tx_hash := none, sender := "alice",
         recipient := "bob", amount := 10, status := .Pending,
         signatures := none, error_message := none,
         created_at := 0, updated_at := 0 }]
      (.TokensLocked ⟨.Solana, .Ethereum, "alice", "bob", 10, 4, "sig4"⟩) 3).1
    = [{ id := 1, nonce := 4, from_chain := .Solana, to_chain := .Ethereum,
         from_tx_hash := "sig4", to_tx_hash := none, sender := "alice",
         recipient := "bob", amount := 10, status := .Pending,
         signatures := none, error_message := none,
         created_at := 0, updated_at := 0 }] :=
  ⟨by decide,
   (ledger_ingest_idempotent
      [{ id := 1, nonce := 4, from_chain := .Solana, to_chain := .Ethereum,
         from_tx_hash := "sig4", to_tx_hash := none, sender := "alice",
         recipient := "bob", amount := 10, status := .Pending,
         signatures := none, error_message := none,
         created_at := 0, updated_at := 0 }]
      ⟨.Solana, .Ethereum, "alice", "bob", 10, 4, "sig4"⟩ 3 (by decide)).1⟩

/-! ## C8: initialize validation -/

/-- C8: with the transaction-level checks passing, Initialize rejects
fee 10001, a validator list of length 0 or 6, and a threshold of 0 or above
the validator count — persisting nothing — and succeeds for fee ≤ 10000,
1-5 validators and a threshold between 1 and the validator count. -/
theorem initialize_validation (pid : Pubkey)
    (fpa : List (List Nat) → Pubkey → Pubkey × Nat)
    (st : VaultSt) (env : InitEnv) (admin relayer : Pubkey)
    (fee : Nat) (validators : List Pubkey) (threshold : Nat)
    (h1 : env.adminIsSigner = true) (h2 : env.adminKey = admin)
    (h3 : st.configOwner = systemProgramId)
    (h4 : env.vaultPdaKey = (fpa [vaultSeed, env.configKey] pid).1)
    (h5 : env.adminCanFund = true) :
    (fee = 10001 →
      process_initialize pid fpa st env admin relayer fee validators threshold
        = (st, some (.custom .InvalidFee))) ∧
    (fee ≤ 10000 → validators.length = 0 ∨ validators.length = 6 →
      process_initialize pid fpa st env admin relayer fee validators threshold
        = (st, some .invalidArgument)) ∧
    (fee ≤ 10000 → 1 ≤ validators.length → validators.length ≤ 5 →
      threshold = 0 ∨ validators.length < threshold →
      process_initialize pid fpa st env admin relayer fee validators threshold
        = (st, some .invalidArgument)) ∧
    (fee ≤ 10000 → 1 ≤ validators.length → validators.length ≤ 5 →
      1 ≤ threshold → threshold ≤ validators.length →
      process_initialize pid fpa st env admin relayer fee validators threshold
        = ({ st with
              configOwner := pid,
              configData := some {
                admin := admin,
                vault_pda_bump := (fpa [vaultSeed, env.configKey] pid).2,
                relayer_authority := relayer,
                fee_basis_points := fee,
                is_paused := false,
                total_locked := 0,
                nonce := 0,
                validators := validators,
                validator_threshold := threshold } }, none)) := by
  refine ⟨?_, ?_, ?_, ?_⟩
  · intro hf
    unfold process_initialize
    rw [if_neg (by simp [h1]), if_neg (by simp [h2]), if_neg (by simp [h3]),
      if_pos (by omega)]
  · intro hf hl
    unfold process_initialize
    rw [if_neg (by simp [h1]), if_neg (by simp [h2]), if_neg (by simp [h3]),
      if_neg (by omega), if_pos (by omega)]
  · intro hf hl1 hl5 hthr
    unfold process_initialize
    rw [if_neg (by simp [h1]), if_neg (by simp [h2]), if_neg (by simp [h3]),
      if_neg (by omega), if_neg (by omega), if_pos (by omega)]
  · intro hf hl1 hl5 ht1 htl
    unfold process_initialize
    rw [if_neg (by simp [h1]), if_neg (by simp [h2]), if_neg (by simp [h3]),
      if_neg (by omega), if_neg (by omega), if_neg (by omega)]
    simp [h4, h5]

/-- Shared witness fixture: a program id. -/
def pidW : Pubkey := [7]

/-- Shared witness fixture: a PDA derivation returning one key and bump. -/
def fpaW : List (List Nat) → Pubkey → Pubkey × Nat := fun _ _ => ([2], 255)

/-- Shared witness fixture: an uninitialized vault state. -/
def stInitW : VaultSt :=
  { configOwner := systemProgramId, configData := none,
    recordOwner := [0], recordData := none,
    userTokenAmount := 0, userTokenMint := [0], vaultTokenAmount := 0 }

/-- Shared witness fixture: the initialize context. -/
def envInitW : InitEnv :=
  { adminKey := [9], adminIsSigner := true, configKey := [3],
    vaultPdaKey := [2], adminCanFund := true }

/-- Witness for C8: a 1-validator, threshold-1, 50 bps initialize succeeds
and persists the expected config. -/
theorem initialize_validation_witness :
    process_initialize pidW fpaW stInitW envInitW [9] [8] 50 [[5]] 1
      = ({ stInitW with
            configOwner := pidW,
            configData := some {
              admin := [9],
              vault_pda_bump := 255,
              relayer_authority := [8],
              fee_basis_points := 50,
              is_paused := false,
              total_locked := 0,
              nonce := 0,
              validators := [[5]],
              validator_threshold := 1 } }, none) :=
  (initialize_validation pidW fpaW stInitW envInitW [9] [8] 50 [[5]] 1
    (by decide) (by decide) (by decide) (by decide) (by decide)).2.2.2
    (by decide) (by decide) (by decide) (by decide) (by decide)

/-! ## C6: confirmation polling (corrected: no Failed transition exists) -/

/-- A Submitted ledger row with a stored destination hash, bound for
Solana. -/
def submittedRow : RelayerTransaction :=
  { id := 1, nonce := 5, from_chain := .Ethereum, to_chain := .Solana,
    from_tx_hash := "ethhash5", to_tx_hash := some "solana_tx_5",
    sender := "0xsender", recipient := "recip", amount := 100,
    status := .Submitted, signatures := some "[]", error_message := none,
    created_at := 0, updated_at := 0 }

/-- C6 counterexample: polling a Submitted row whose destination transaction
finalized as a failure leaves the row exactly as it was — still Submitted,
no error message — rather than setting it to Failed as claimed. -/
theorem check_confirmation_failure_counterexample :
    check_confirmation submittedRow .finalizedErr true 1 = .ok submittedRow ∧
    submittedRow.status = .Submitted ∧
    submittedRow.error_message = none :=
  ⟨rfl, rfl, rfl⟩

/-- C6 (amended): one Submitter confirmation poll of a Submitted row with a
stored destination hash sets the row to Confirmed when the destination
reports finalized success, and leaves the row unchanged both when the
transaction finalized as a failure and when it is not yet final; no outcome
ever sets the row to Failed. -/
theorem check_confirmation_amended (tx : RelayerTransaction)
    (sol : SolanaSignatureStatus) (ethOk : Bool) (now : Nat) (hstr : String)
    (hsub : tx.status = .Submitted) (hhash : tx.to_tx_hash = some hstr)
    (hchain : tx.to_chain = .Solana) :
    (sol = .finalizedOk →
      check_confirmation tx sol ethOk now
        = .ok (update_transaction_status tx .Confirmed none none now)) ∧
    (sol = .finalizedErr ∨ sol = .notFound ∨ sol = .rpcError →
      check_confirmation tx sol ethOk now = .ok tx) ∧
    (∀ tx2, check_confirmation tx sol ethOk now = .ok tx2 →
      tx2.status ≠ .Failed) := by
  refine ⟨?_, ?_, ?_⟩
  · intro hs
    subst hs
    simp [check_confirmation, hhash, hchain, check_solana_confirmation]
  · intro hs
    rcases hs with hs | hs | hs <;> subst hs <;>
      simp [check_confirmation, hhash, hchain, check_solana_confirmation]
  · intro tx2 htx2
    cases sol with
    | badHash =>
      simp [check_confirmation, hhash, hchain, check_solana_confirmation] at htx2
    | finalizedOk =>
      simp [check_confirmation, hhash, hchain, check_solana_confirmation] at htx2
      rw [← htx2]
      simp [update_transaction_status]
    | finalizedErr =>
      simp [check_confirmation, hhash, hchain, check_solana_confirmation] at htx2
      rw [← htx2]
      simp [hsub]
    | notFound =>
      simp [check_confirmation, hhash, hchain, check_solana_confirmation] at htx2
      rw [← htx2]
      simp [hsub]
    | rpcError =>
      simp [check_confirmation, hhash, hchain, check_solana_confirmation] at htx2
      rw [← htx2]
      simp [hsub]

/-- Witness for the amended C6: a finalized-success poll confirms the
concrete Submitted row. -/
theorem check_confirmation_amended_witness :
    check_confirmation submittedRow .finalizedOk true 1
      = .ok (update_transaction_status submittedRow .Confirmed none none 1) :=
  (check_confirmation_amended submittedRow .finalizedOk true 1 "solana_tx_5"
    (by decide) (by decide) (by decide)).1 rfl

/-! ## C1: the aggregator's unlock message (code bug: formats disagree) -/

/-- The all-zero public key. -/
def zeroPubkey : Pubkey := List.replicate 32 0

/-- The base58 text of the all-zero public key — thirty-two "1" characters —
as UTF-8 bytes, which is the recipient string the relayer passes for that
key. -/
def zeroPubkeyBase58 : List Nat := List.replicate 32 49

/-- The UTF-8 bytes of the origin sender string "0xabc". -/
def ethSenderBytes : List Nat := [48, 120, 97, 98, 99]

/-- C1: for the transfer (recipient = all-zero key, amount 1, nonce 0,
origin sender "0xabc"), the message the relayer's SignatureAggregator
builds differs from the message VaultCustody re-derives and verifies
against: the on-chain side hashes "unlock:" with nonce, recipient key
bytes and amount in little-endian order, while the relayer hashes the
recipient base58 text, amount, nonce and origin sender with no tag. -/
theorem aggregator_message_mismatch :
    create_unlock_message 0 zeroPubkey 1
      = sha256 (unlockTag ++ u64le 0 ++ zeroPubkey ++ u64le 1) ∧
    create_solana_message_hash zeroPubkeyBase58 1 0 ethSenderBytes
      ≠ create_unlock_message 0 zeroPubkey 1 :=
  ⟨rfl, by decide⟩

/-! ## Unlock: shared success characterization -/

/-- The state `process_unlock_tokens` persists on success: the locked amount
moved from the vault to the user, the record marked unlocked and Completed,
and `total_locked` decreased. -/
def unlock_result (st : VaultSt) (cfg : BridgeConfig) (ubs : UserBridgeState) : VaultSt :=
  { st with
      vaultTokenAmount := st.vaultTokenAmount - ubs.locked_amount,
      userTokenAmount := st.userTokenAmount + ubs.locked_amount,
      recordData := some { ubs with unlocked := true, status := .Completed },
      configData := some
        { cfg with total_locked := cfg.total_locked - ubs.locked_amount } }

/-- When every guard of `process_unlock_tokens` holds — authorized signing
relayer, owned accounts, matching nonce, a Pending un-unlocked record,
matching PDA and bump, at least threshold verifying signatures, and
sufficient balances — the call succeeds and persists `unlock_result`. -/
theorem unlock_success_run (pid : Pubkey)
    (fpa : List (List Nat) → Pubkey → Pubkey × Nat)
    (verify : List Nat → List Nat → Pubkey → Bool)
    (st : VaultSt) (env : UnlockEnv) (nonce : Nat) (sigs : List (List Nat))
    (cfg : BridgeConfig) (ubs : UserBridgeState)
    (hcd : st.configData = some cfg) (hrd : st.recordData = some ubs)
    (h1 : env.relayerIsSigner = true) (h2 : st.configOwner = pid)
    (h3 : env.relayerKey = cfg.relayer_authority) (h4 : st.recordOwner = pid)
    (h5 : ubs.nonce = nonce) (h6 : ubs.unlocked = false)
    (h7 : ubs.status = .Pending) (h8 : env.userKey = ubs.user)
    (h9 : env.vaultPdaKey = (fpa [vaultSeed, env.configKey] pid).1)
    (h10 : (fpa [vaultSeed, env.configKey] pid).2 = cfg.vault_pda_bump)
    (hthr : cfg.validator_threshold ≤
      (sigs.filter (fun s => cfg.validators.any
        (fun v => verify (create_unlock_message nonce ubs.user ubs.locked_amount) s v))).length)
    (hbal : ubs.locked_amount ≤ st.vaultTokenAmount)
    (hov : st.userTokenAmount + ubs.locked_amount < u64M)
    (htl : ubs.locked_amount ≤ cfg.total_locked) :
    process_unlock_tokens pid fpa verify st env nonce sigs
      = (unlock_result st cfg ubs, none) := by
  have hlenf := List.length_filter_le (fun s => cfg.validators.any
    (fun v => verify (create_unlock_message nonce ubs.user ubs.locked_amount) s v)) sigs
  simp [process_unlock_tokens, hcd, hrd, h1, h2, h3, h4, h5, h6, h7, h8, h9, h10,
    count_valid_signatures_eq_filter, unlock_result]
  rw [if_neg (by omega), if_neg (by omega), if_neg (by omega),
    if_neg (by omega), if_neg (by omega)]

/-! ## C4: threshold enforcement -/

/-- C4: when the transaction-level guards pass but fewer supplied signatures
verify against some configured validator key than the threshold, UnlockTokens
fails with ThresholdNotMet and changes nothing, regardless of how many total
signatures were supplied; the count equals the number of matching
signatures, and appending a signature that matches no configured key never
changes the count. -/
theorem unlock_threshold_enforced (pid : Pubkey)
    (fpa : List (List Nat) → Pubkey → Pubkey × Nat)
    (verify : List Nat → List Nat → Pubkey → Bool)
    (st : VaultSt) (env : UnlockEnv) (nonce : Nat) (sigs : List (List Nat))
    (cfg : BridgeConfig) (ubs : UserBridgeState)
    (hcd : st.configData = some cfg) (hrd : st.recordData = some ubs)
    (h1 : env.relayerIsSigner = true) (h2 : st.configOwner = pid)
    (h3 : env.relayerKey = cfg.relayer_authority) (h4 : st.recordOwner = pid)
    (h5 : ubs.nonce = nonce) (h6 : ubs.unlocked = false)
    (h7 : ubs.status = .Pending) (h8 : env.userKey = ubs.user)
    (h9 : env.vaultPdaKey = (fpa [vaultSeed, env.configKey] pid).1)
    (h10 : (fpa [vaultSeed, env.configKey] pid).2 = cfg.vault_pda_bump)
    (hcount : (sigs.filter (fun s => cfg.validators.any
      (fun v => verify (create_unlock_message nonce ubs.user ubs.locked_amount) s v))).length
      < cfg.validator_threshold) :
    process_unlock_tokens pid fpa verify st env nonce sigs
      = (st, some (.custom .ThresholdNotMet)) ∧
    count_valid_signatures verify
        (create_unlock_message nonce ubs.user ubs.locked_amount) sigs cfg.validators
      = (sigs.filter (fun s => cfg.validators.any
          (fun v => verify (create_unlock_message nonce ubs.user ubs.locked_amount) s v))).length ∧
    (∀ (bad : List Nat),
      cfg.validators.any
        (fun v => verify (create_unlock_message nonce ubs.user ubs.locked_amount) bad v) = false →
      count_valid_signatures verify
          (create_unlock_message nonce ubs.user ubs.locked_amount) (sigs ++ [bad]) cfg.validators
        = count_valid_signatures verify
            (create_unlock_message nonce ubs.user ubs.locked_amount) sigs cfg.validators) := by
  refine ⟨?_, count_valid_signatures_eq_filter verify _ sigs cfg.validators, ?_⟩
  · simp [process_unlock_tokens, hcd, hrd, h1, h2, h3, h4, h5, h6, h7, h8, h9, h10,
      count_valid_signatures_eq_filter]
    intro hA hB
    exact absurd hB (by omega)
  · intro bad hbad
    rw [count_valid_signatures_eq_filter, count_valid_signatures_eq_filter,
      List.filter_append]
    simp [hbad]

/-! ## C3: unlock succeeds exactly once -/

/-- C3: a first unlock of a Pending, not-yet-unlocked record with at least
threshold verifying signatures succeeds, flipping the record's `unlocked`
flag from false to true and its status to Completed; any later unlock of the
same nonce — whatever signatures, verifier or PDA derivation the second call
uses — fails with AlreadyUnlocked and leaves the state unchanged. -/
theorem unlock_exactly_once (pid : Pubkey)
    (fpa : List (List Nat) → Pubkey → Pubkey × Nat)
    (verify : List Nat → List Nat → Pubkey → Bool)
    (st : VaultSt) (env : UnlockEnv) (nonce : Nat) (sigs : List (List Nat))
    (cfg : BridgeConfig) (ubs : UserBridgeState)
    (hcd : st.configData = some cfg) (hrd : st.recordData = some ubs)
    (h1 : env.relayerIsSigner = true) (h2 : st.configOwner = pid)
    (h3 : env.relayerKey = cfg.relayer_authority) (h4 : st.recordOwner = pid)
    (h5 : ubs.nonce = nonce) (h6 : ubs.unlocked = false)
    (h7 : ubs.status = .Pending) (h8 : env.userKey = ubs.user)
    (h9 : env.vaultPdaKey = (fpa [vaultSeed, env.configKey] pid).1)
    (h10 : (fpa [vaultSeed, env.configKey] pid).2 = cfg.vault_pda_bump)
    (hthr : cfg.validator_threshold ≤
      (sigs.filter (fun s => cfg.validators.any
        (fun v => verify (create_unlock_message nonce ubs.user ubs.locked_amount) s v))).length)
    (hbal : ubs.locked_amount ≤ st.vaultTokenAmount)
    (hov : st.userTokenAmount + ubs.locked_amount < u64M)
    (htl : ubs.locked_amount ≤ cfg.total_locked) :
    ubs.unlocked = false ∧
    process_unlock_tokens pid fpa verify st env nonce sigs
      = (unlock_result st cfg ubs, none) ∧
    (unlock_result st cfg ubs).recordData
      = some { ubs with unlocked := true, status := .Completed } ∧
    (∀ (env2 : UnlockEnv) (fpa2 : List (List Nat) → Pubkey → Pubkey × Nat)
        (verify2 : List Nat → List Nat → Pubkey → Bool) (sigs2 : List (List Nat)),
      env2.relayerIsSigner = true → env2.relayerKey = env.relayerKey →
      process_unlock_tokens pid fpa2 verify2 (unlock_result st cfg ubs) env2 nonce sigs2
        = (unlock_result st cfg ubs, some (.custom .AlreadyUnlocked))) := by
  refine ⟨h6,
    unlock_success_run pid fpa verify st env nonce sigs cfg ubs hcd hrd
      h1 h2 h3 h4 h5 h6 h7 h8 h9 h10 hthr hbal hov htl,
    rfl, ?_⟩
  intro env2 fpa2 verify2 sigs2 hs2 hk2
  simp [process_unlock_tokens, unlock_result, hs2, hk2, h2, h3, h4, h5]

/-! ## C7: pause blocks lock but not unlock -/

/-- C7: with the bridge paused, every LockTokens call that reaches the pause
check fails with BridgePaused and changes nothing, while an otherwise-valid
UnlockTokens call on the very same paused state still succeeds. -/
theorem pause_blocks_lock_not_unlock (pid : Pubkey)
    (fpa : List (List Nat) → Pubkey → Pubkey × Nat)
    (verify : List Nat → List Nat → Pubkey → Bool)
    (st : VaultSt) (cfg : BridgeConfig) (lenv : LockEnv)
    (amount dc : Nat) (da : List Nat)
    (hcd : st.configData = some cfg) (hp : cfg.is_paused = true)
    (hsig : lenv.userIsSigner = true) (hown : st.configOwner = pid) :
    process_lock_tokens pid fpa st lenv amount dc da
      = (st, some (.custom .BridgePaused)) ∧
    (∀ (uenv : UnlockEnv) (nonce : Nat) (sigs : List (List Nat))
        (ubs : UserBridgeState),
      st.recordData = some ubs →
      uenv.relayerIsSigner = true →
      uenv.relayerKey = cfg.relayer_authority →
      st.recordOwner = pid →
      ubs.nonce = nonce → ubs.unlocked = false → ubs.status = .Pending →
      uenv.userKey = ubs.user →
      uenv.vaultPdaKey = (fpa [vaultSeed, uenv.configKey] pid).1 →
      (fpa [vaultSeed, uenv.configKey] pid).2 = cfg.vault_pda_bump →
      cfg.validator_threshold ≤
        (sigs.filter (fun s => cfg.validators.any
          (fun v => verify (create_unlock_message nonce ubs.user ubs.locked_amount) s v))).length →
      ubs.locked_amount ≤ st.vaultTokenAmount →
      st.userTokenAmount + ubs.locked_amount < u64M →
      ubs.locked_amount ≤ cfg.total_locked →
      process_unlock_tokens pid fpa verify st uenv nonce sigs
        = (unlock_result st cfg ubs, none)) := by
  constructor
  · simp [process_lock_tokens, hsig, hown, hcd, hp]
  · intro uenv nonce sigs ubs hrd hu1 hu3 hu4 hu5 hu6 hu7 hu8 hu9 hu10 huthr hubal huov hutl
    exact unlock_success_run pid fpa verify st uenv nonce sigs cfg ubs hcd hrd
      hu1 hown hu3 hu4 hu5 hu6 hu7 hu8 hu9 hu10 huthr hubal huov hutl

/-! ## Concrete unlock fixtures and witnesses -/

/-- Shared witness fixture: a verifier accepting every signature. -/
def verifyAllW : List Nat → List Nat → Pubkey → Bool := fun _ _ _ => true

/-- Shared witness fixture: a verifier rejecting every signature. -/
def verifyNoneW : List Nat → List Nat → Pubkey → Bool := fun _ _ _ => false

/-- Shared witness fixture: a configured bridge, one validator, threshold 1. -/
def cfgW : BridgeConfig :=
  { admin := [9], vault_pda_bump := 255, relayer_authority := [8],
    fee_basis_points := 50, is_paused := false, total_locked := 100,
    nonce := 1, validators := [[5]], validator_threshold := 1 }

/-- Shared witness fixture: a Pending lock record for nonce 0. -/
def ubsW : UserBridgeState :=
  { user := [4], locked_amount := 60, token_mint := [6],
    destination_chain := 1, destination_address := List.replicate 32 0,
    status := .Pending, nonce := 0, timestamp := 0, unlocked := false }

/-- Shared witness fixture: an initialized vault with a Pending record. -/
def stUnlockW : VaultSt :=
  { configOwner := pidW, configData := some cfgW,
    recordOwner := pidW, recordData := some ubsW,
    userTokenAmount := 10, userTokenMint := [6], vaultTokenAmount := 80 }

/-- Shared witness fixture: the unlock transaction context. -/
def envUnlockW : UnlockEnv :=
  { relayerKey := [8], relayerIsSigner := true, userKey := [4],
    configKey := [3], vaultPdaKey := [2] }

/-- Witness for C3: the concrete unlock succeeds once and the repeat fails
with AlreadyUnlocked, leaving the state unchanged. -/
theorem unlock_exactly_once_witness :
    process_unlock_tokens pidW fpaW verifyAllW stUnlockW envUnlockW 0 [[1]]
      = (unlock_result stUnlockW cfgW ubsW, none) ∧
    (unlock_result stUnlockW cfgW ubsW).recordData
      = some { ubsW with unlocked := true, status := .Completed } ∧
    process_unlock_tokens pidW fpaW verifyAllW (unlock_result stUnlockW cfgW ubsW)
        envUnlockW 0 [[1]]
      = (unlock_result stUnlockW cfgW ubsW, some (.custom .AlreadyUnlocked)) := by
  have h := unlock_exactly_once pidW fpaW verifyAllW stUnlockW envUnlockW 0 [[1]]
    cfgW ubsW rfl rfl rfl rfl rfl rfl rfl rfl rfl rfl rfl rfl
    (by decide) (by decide) (by decide) (by decide)
  exact ⟨h.2.1, h.2.2.1, h.2.2.2 envUnlockW fpaW verifyAllW [[1]] rfl rfl⟩

/-- Witness for C4: three supplied signatures, none verifying, still fail
ThresholdNotMet against a threshold of 1. -/
theorem unlock_threshold_enforced_witness :
    process_unlock_tokens pidW fpaW verifyNoneW stUnlockW envUnlockW 0 [[1], [2], [3]]
      = (stUnlockW, some (.custom .ThresholdNotMet)) :=
  (unlock_threshold_enforced pidW fpaW verifyNoneW stUnlockW envUnlockW 0
    [[1], [2], [3]] cfgW ubsW rfl rfl rfl rfl rfl rfl rfl rfl rfl rfl rfl rfl
    (by decide)).1

/-- Shared witness fixture: the same bridge config, paused. -/
def cfgPausedW : BridgeConfig := { cfgW with is_paused := true }

/-- Shared witness fixture: the vault state with the paused config. -/
def stPausedW : VaultSt := { stUnlockW with configData := some cfgPausedW }

/-- Shared witness fixture: the lock transaction context. -/
def lockEnvW : LockEnv :=
  { userKey := [4], userIsSigner := true, recordKey := [2],
    tokenMintKey := [6], userCanFund := true, now := 0 }

/-- Witness for C7: on the paused state, the concrete lock fails BridgePaused
while the concrete unlock still succeeds. -/
theorem pause_blocks_lock_not_unlock_witness :
    process_lock_tokens pidW fpaW stPausedW lockEnvW 5 1 (List.replicate 32 0)
      = (stPausedW, some (.custom .BridgePaused)) ∧
    process_unlock_tokens pidW fpaW verifyAllW stPausedW envUnlockW 0 [[1]]
      = (unlock_result stPausedW cfgPausedW ubsW, none) := by
  have h := pause_blocks_lock_not_unlock pidW fpaW verifyAllW stPausedW cfgPausedW
    lockEnvW 5 1 (List.replicate 32 0) rfl rfl rfl rfl
  exact ⟨h.1, h.2 envUnlockW 0 [[1]] ubsW rfl rfl rfl rfl rfl rfl rfl rfl rfl rfl
    (by decide) (by decide) (by decide) (by decide)⟩

end BridgeVault
